import Mathlib

/-!
Verification of the `german_to_eng_translator` repository (shallow embedding).

Strings are modelled as `List Char`.  Python's `\w` character class is
modelled over its ASCII fragment (letters, digits, underscore), which is the
fragment exercised by the repository's concrete test sentences; all structural
theorems below are independent of the exact character class.
-/

namespace GermanTranslator

/-- Python's `\w` (word character), ASCII fragment: letters, digits, `_`. -/
def isWordChar (c : Char) : Bool := c.isAlphanum || c == '_'


/-- Negation of `isWordChar`, i.e. Python's `\W`. -/
def notWord (c : Char) : Bool := !isWordChar c


/-- Fuel-driven regex scan underlying `re.split(r'(\b\w+\b)', s)`: a leftmost
match of `\b\w+\b` is a maximal nonempty run of word characters, so the split
alternates the (possibly empty) non-word gap before each such run with the run
itself, ending with the trailing gap.  Pieces may be empty; the caller filters
them out.  Each recursive step consumes at least one character, so fuel
`s.length + 1` always suffices (`scan_step_lt`); the fuel-exhausted branch is
unreachable from `splitParts`. -/
def scanParts : Nat → List Char → List (List Char)
  | 0, _ => []
  | fuel + 1, s =>
    match s.dropWhile notWord with
    | [] => [s.takeWhile notWord]
    | c :: rest =>
      s.takeWhile notWord :: (c :: rest).takeWhile isWordChar ::
        scanParts fuel ((c :: rest).dropWhile isWordChar)


/-- Model of `re.split(r'(\b\w+\b)', s)` (all pieces, empties included). -/
def splitParts (s : List Char) : List (List Char) :=
  scanParts (s.length + 1) s


/-- Fuel-driven scan underlying `re.findall(r'\b\w+\b', s)`: the successive
maximal nonempty runs of word characters, in order. -/
def scanWords : Nat → List Char → List (List Char)
  | 0, _ => []
  | fuel + 1, s =>
    match s.dropWhile notWord with
    | [] => []
    | c :: rest =>
      (c :: rest).takeWhile isWordChar ::
        scanWords fuel ((c :: rest).dropWhile isWordChar)


/-- Model of `re.findall(r'\b\w+\b', s)`. -/
def findallWords (s : List Char) : List (List Char) :=
  scanWords (s.length + 1) s


/-- Model of `word_tokenizer.tokenize_sentence`: empty input gives `[]`, otherwise
`re.findall(r'\b\w+\b', sentence)`. -/
def tokenize_sentence (s : List Char) : List (List Char) :=
  if s.isEmpty then [] else findallWords s


/-- Model of `word_tokenizer.split_sentence_with_delimiters`: empty input gives `[]`,
otherwise `re.split(r'(\b\w+\b)', sentence)` with falsy (empty) parts
filtered out. -/
def split_sentence_with_delimiters (s : List Char) : List (List Char) :=
  if s.isEmpty then [] else (splitParts s).filter (fun p => !p.isEmpty)


/-- The dedup loop of `app.py` (lines 212–218): `unique_words_tracker` is the
set of lowercased words already seen (only membership is consulted), and a
word is appended to the display list exactly when its lowercasing is new. -/
def dedupWords (seen : List (List Char)) : List (List Char) → List (List Char)
  | [] => []
  | w :: ws =>
    if seen.contains (w.map Char.toLower) then dedupWords seen ws
    else w :: dedupWords (w.map Char.toLower :: seen) ws


/-- The `display_words_list` construction of `app.py` (lines 210–218): split the
sentence keeping delimiters, keep the parts containing a word character
(`re.search(r"\w", part)`), then deduplicate case-insensitively keeping the
first-seen casing. -/
def display_words_list (sentence : List Char) : List (List Char) :=
  dedupWords []
    ((split_sentence_with_delimiters sentence).filter (fun p => p.any isWordChar))


/-- Python `str` whitespace (ASCII fragment): the characters removed by
`str.strip()`. -/
def isPySpace (c : Char) : Bool :=
  c == ' ' || c == '\t' || c == '\n' || c == '\r' ||
    c == Char.ofNat 11 || c == Char.ofNat 12


/-- Python `str.strip()`: drop leading and trailing whitespace. -/
def pyStrip (s : List Char) : List Char :=
  ((s.dropWhile isPySpace).reverse.dropWhile isPySpace).reverse


/-- Python `needle in hay` on strings: substring containment. -/
def containsSubstring (needle : List Char) : List Char → Bool
  | [] => needle.isEmpty
  | c :: t => needle.isPrefixOf (c :: t) || containsSubstring needle t


/-- Python `hay.split(sep)[0]` for a nonempty separator: the part of `hay`
before the first occurrence of `sep` (all of `hay` when `sep` is absent). -/
def splitFirstAt (sep : List Char) : List Char → List Char
  | [] => []
  | c :: t => if sep.isPrefixOf (c :: t) then [] else c :: splitFirstAt sep t


/-- The marker MyMemory embeds in degraded responses
(`"MYMEMORY WARNING" in translated_text`). -/
def mymemoryMarker : List Char := "MYMEMORY WARNING".data


/-- Separator for the first truncation `translated_text.split(" NMT")[0]`. -/
def nmtSep : List Char := " NMT".data


/-- Separator for the second truncation `.split(" MT ")[0]`. -/
def mtSep : List Char := " MT ".data


/-- Outcome of the single `requests.get` call in `translate_text`: the three
caught exception classes, or an HTTP 200 JSON body from which
`data.get("responseData", {}).get("translatedText")` extracted `none` (field
missing) or a string. -/
inductive ApiOutcome where
  | timeout
  | requestError
  | jsonError
  | ok (translatedText : Option (List Char))


/-- Model of `translation_api.translate_text`: returns `none` on empty input before
the request is made (the result is independent of the `outcome` argument),
`none` on every caught exception, `none` when the translation field is
missing or falsy, and otherwise the translated text — truncated at the first
`" NMT"` / `" MT "` and stripped, but only when the response text contains
the `MYMEMORY WARNING` marker. -/
def translate_text (text : List Char) (outcome : ApiOutcome) :
    Option (List Char) :=
  if text.isEmpty then none
  else
    match outcome with
    | .timeout => none
    | .requestError => none
    | .jsonError => none
    | .ok none => none
    | .ok (some t) =>
      if t.isEmpty then none
      else if containsSubstring mymemoryMarker t then
        some (pyStrip (splitFirstAt mtSep (splitFirstAt nmtSep t)))
      else some t


/-- Character class of the anchored leading alternative
`^\s*["`\'\*>\-\s]+` in `ollama_utils` (whitespace subsumed). -/
def isJunkLead (c : Char) : Bool :=
  isPySpace c || c == '"' || c == '`' || c == '\'' || c == '*' ||
    c == '>' || c == '-'


/-- Character class of the trailing alternative `["`\'\*]+\s*$`. -/
def isQuoteJunk (c : Char) : Bool :=
  c == '"' || c == '`' || c == '\'' || c == '*'


/-- One pass of `re.sub(r'^\s*["`\'\*>\-\s]+|["`\'\*]+\s*$', "", s)`: the
anchored first alternative removes the maximal junk-class run at position 0
(nothing when that run is empty, since the pattern needs at least one
character), and the second alternative removes the trailing whitespace run
together with the maximal quote-class run immediately before it — but only
when that quote run is nonempty, since `$` anchors the match and the
alternatives cannot overlap. -/
def stripJunkEdges (s : List Char) : List Char :=
  let s1 := s.dropWhile isJunkLead
  let r1 := s1.reverse.dropWhile isPySpace
  match r1 with
  | [] => s1
  | c :: _ => if isQuoteJunk c then (r1.dropWhile isQuoteJunk).reverse else s1


/-- Model of `re.sub(r"^(Beispiel|Example)\s*:\s*", "", s, flags=re.IGNORECASE)`: drop
a case-insensitive `Beispiel`/`Example` prefix followed by optional
whitespace, a colon, and optional whitespace; otherwise return `s`
unchanged. -/
def stripExampleLead (s : List Char) : List Char :=
  let tryWord : List Char → Option (List Char) := fun w =>
    if (s.map Char.toLower).take w.length == w then
      match (s.drop w.length).dropWhile isPySpace with
      | ':' :: r => some (r.dropWhile isPySpace)
      | _ => none
    else none
  match tryWord ("beispiel".data) with
  | some r => r
  | none =>
    match tryWord ("example".data) with
    | some r => r
    | none => s


/-- The post-processing of `get_german_example_sentence_ollama` (lines
64–65): strip quote/markdown/bullet characters at the edges, `strip()`, drop
an `Example:`-style lead, `strip()` again. -/
def clean_example_sentence (s : List Char) : List Char :=
  pyStrip (stripExampleLead (pyStrip (stripJunkEdges s)))


/-- Model of `ollama_utils.get_german_example_sentence_ollama`, with the chat response
content abstracted as an oracle (`none` models a raised exception): empty
word and empty stripped content give `none`; otherwise the cleaned content is
returned. -/
def get_german_example_sentence_ollama (word : List Char)
    (responseContent : Option (List Char)) : Option (List Char) :=
  if word.isEmpty then none
  else
    match responseContent with
    | none => none
    | some content =>
      if (pyStrip content).isEmpty then none
      else some (clean_example_sentence (pyStrip content))


/-- Session state of `app.py`: the `st.session_state` fields initialised at
lines 46–63.  Audio bytes are modelled as a list of byte values. -/
structure AppState where
  input_sentence : List Char
  word_translation_result : Option (List Char × List Char)
  sentence_translation_result : Option (List Char)
  active_translation_word : Option (List Char)
  german_example_sentence_result : Option (List Char)
  english_example_translation_result : Option (List Char)
  show_word_buttons : Bool
  tts_audio_bytes : Option (List Nat)
  tts_audio_format : Option (List Char)
deriving DecidableEq


/-- Python truthiness of an `Optional[str]`: `None` and the empty string are
falsy. -/
def optTruthy : Option (List Char) → Bool
  | none => false
  | some t => !t.isEmpty


/-- Failure marker stored with the word translation. -/
def translationFailedMsg : List Char := "[Translation Failed]".data


/-- Failure marker stored with the example translation. -/
def exampleFailedMsg : List Char := "[Example Translation Failed]".data


/-- Model of `app.update_input_state` (lines 142–157): when the widget text
differs from the stored sentence, the sentence is replaced and the
word-translation, sentence-translation, active-word, both example results,
the words-visible flag and the audio bytes are all reset. -/
def update_input_state (s : AppState) (widget : List Char) : AppState :=
  if s.input_sentence ≠ widget then
    { s with
      input_sentence := widget
      word_translation_result := none
      sentence_translation_result := none
      active_translation_word := none
      german_example_sentence_result := none
      english_example_translation_result := none
      show_word_buttons := false
      tts_audio_bytes := none }
  else s


/-- Model of the `toggle_words_btn` handler (lines 185–193): flip the
words-visible flag; when hiding, additionally clear the active word, word
result, example results and audio bytes. -/
def toggle_words_button (s : AppState) : AppState :=
  let s1 := { s with show_word_buttons := !s.show_word_buttons }
  if s1.show_word_buttons then s1
  else
    { s1 with
      active_translation_word := none
      word_translation_result := none
      german_example_sentence_result := none
      english_example_translation_result := none
      tts_audio_bytes := none }


/-- The reset prefix of `app.handle_word_click` (lines 79–84), executed
before any network request is issued. -/
def handle_word_click_reset (s : AppState) (word : List Char) : AppState :=
  { s with
    active_translation_word := some word
    sentence_translation_result := none
    word_translation_result := none
    german_example_sentence_result := none
    english_example_translation_result := none
    tts_audio_bytes := none }


/-- Model of `app.handle_word_click` (lines 66–113), with the three remote
calls abstracted as oracles: `wordTrans` for `translate_text(word)`,
`germanExample` for `get_german_example_sentence_ollama(word)` and
`exampleTrans` for `translate_text` on the generated example.  After the
reset prefix, each result is stored as it becomes available: the word
translation (or its failure marker), then the example, then — only when the
stored example is truthy — the example translation (or its failure
marker). -/
def handle_word_click (s : AppState) (word : List Char)
    (wordTrans germanExample exampleTrans : Option (List Char)) : AppState :=
  let s1 := handle_word_click_reset s word
  let s2 :=
    { s1 with
      word_translation_result :=
        some (word,
          if optTruthy wordTrans then wordTrans.getD [] else translationFailedMsg) }
  let s3 := { s2 with german_example_sentence_result := germanExample }
  if optTruthy s3.german_example_sentence_result then
    { s3 with
      english_example_translation_result :=
        some (if optTruthy exampleTrans then exampleTrans.getD []
          else exampleFailedMsg) }
  else { s3 with english_example_translation_result := none }


/-- A concrete freshly-initialised session state (lines 46–63 of `app.py`). -/
def initialAppState : AppState :=
  { input_sentence := []
    word_translation_result := none
    sentence_translation_result := none
    active_translation_word := none
    german_example_sentence_result := none
    english_example_translation_result := none
    show_word_buttons := false
    tts_audio_bytes := none
    tts_audio_format := none }


/-- Startup facts of `tts_utils`: which backends initialised successfully.
`hf_model_loaded` stands for `hf_processor and hf_model` being set. -/
structure TtsConfig where
  hf_libraries_installed : Bool
  hf_model_loaded : Bool
  gtts_installed : Bool
deriving DecidableEq


/-- The `(audio_bytes, audio_format, engine_name)` triple returned by the
`tts_utils` synthesis functions. -/
structure TtsResult where
  bytes : Option (List Nat)
  format : Option (List Char)
  engine : Option (List Char)
deriving DecidableEq


/-- Engine identifier constant of the primary backend. -/
def engineHuggingface : List Char := "huggingface".data


/-- Engine identifier constant of the secondary backend. -/
def engineGtts : List Char := "gtts".data


/-- The `TTS_ENGINE` configuration constant of `tts_utils` (line 8). -/
def TTS_ENGINE : List Char := engineHuggingface


/-- MIME format of the primary backend's output. -/
def audioWavFormat : List Char := "audio/wav".data


/-- MIME format of the secondary backend's output. -/
def audioMp3Format : List Char := "audio/mp3".data


/-- Engine name reported by the primary backend. -/
def hfEngineName : List Char := "Hugging Face".data


/-- Engine name reported by the secondary backend. -/
def gttsEngineName : List Char := "gTTS".data


/-- Suffix appended to the engine name of a fallback result. -/
def fallbackTag : List Char := " (Fallback)".data


/-- Model of `tts_utils._generate_speech_audio_hf`, with the waveform
synthesis abstracted as an oracle (`none` models a raised exception):
returns the absent triple when the backend is unavailable, the text is
empty, or the call raises; otherwise WAV bytes tagged `Hugging Face`. -/
def generate_speech_audio_hf (cfg : TtsConfig) (text : List Char)
    (hfOut : Option (List Nat)) : TtsResult :=
  if !(cfg.hf_libraries_installed && cfg.hf_model_loaded) || text.isEmpty then
    ⟨none, none, none⟩
  else
    match hfOut with
    | none => ⟨none, none, none⟩
    | some b => ⟨some b, some audioWavFormat, some hfEngineName⟩


/-- Model of `tts_utils._generate_speech_audio_gtts`, with the remote call
abstracted as an oracle: returns the absent triple when gTTS is not
installed, the text is empty, or the call raises; otherwise MP3 bytes tagged
`gTTS`. -/
def generate_speech_audio_gtts (cfg : TtsConfig) (text : List Char)
    (gttsOut : Option (List Nat)) : TtsResult :=
  if !(cfg.gtts_installed && !text.isEmpty) then ⟨none, none, none⟩
  else
    match gttsOut with
    | none => ⟨none, none, none⟩
    | some b => ⟨some b, some audioMp3Format, some gttsEngineName⟩


/-- Model of `tts_utils.generate_speech_audio` (lines 141–171): try the
engine selected by `TTS_ENGINE` (checking its availability first); if the
resulting bytes are `None` and gTTS is installed, call gTTS and append
`" (Fallback)"` to a truthy engine name. -/
def generate_speech_audio (cfg : TtsConfig) (text : List Char)
    (hfOut gttsOut : Option (List Nat)) : TtsResult :=
  let r0 : TtsResult :=
    if TTS_ENGINE = engineHuggingface ∧ cfg.hf_libraries_installed = true ∧
        cfg.hf_model_loaded = true then
      generate_speech_audio_hf cfg text hfOut
    else if TTS_ENGINE = engineGtts ∧ cfg.gtts_installed = true then
      generate_speech_audio_gtts cfg text gttsOut
    else ⟨none, none, none⟩
  if r0.bytes = none ∧ cfg.gtts_installed = true then
    let g := generate_speech_audio_gtts cfg text gttsOut
    ⟨g.bytes, g.format,
      match g.engine with
      | none => none
      | some n => if n.isEmpty then some n else some (n ++ fallbackTag)⟩
  else r0


/-- If `dropWhile p` produces a cons, its head refutes `p`. -/
theorem dropWhile_eq_cons_head (p : Char → Bool) :
    ∀ (l : List Char) (c : Char) (rest : List Char),
      l.dropWhile p = c :: rest → p c = false := by
  intro l
  induction l with
  | nil => intro c rest h; simp [List.dropWhile] at h
  | cons a t ih =>
    intro c rest h
    by_cases hp : p a = true
    · rw [List.dropWhile_cons_of_pos hp] at h
      exact ih c rest h
    · rw [List.dropWhile_cons_of_neg hp] at h
      cases h
      exact Bool.eq_false_iff.mpr hp


/-- List `dropWhile` never lengthens a list. -/
theorem length_dropWhile_le (p : Char → Bool) :
    ∀ l : List Char, (l.dropWhile p).length ≤ l.length := by
  intro l
  induction l with
  | nil => simp [List.dropWhile]
  | cons a t ih =>
    by_cases hp : p a = true
    · rw [List.dropWhile_cons_of_pos hp]
      exact Nat.le_succ_of_le ih
    · rw [List.dropWhile_cons_of_neg hp]


/-- The tail left after consuming one delimiter run and one word run is
strictly shorter than the input: the termination measure for the regex scan. -/
theorem scan_step_lt (s : List Char) (c : Char) (rest : List Char)
    (h : s.dropWhile notWord = c :: rest) :
    ((c :: rest).dropWhile isWordChar).length < s.length := by
  have hc : notWord c = false := dropWhile_eq_cons_head notWord s c rest h
  have hc' : isWordChar c = true := by
    simpa [notWord] using hc
  have h1 : (c :: rest).dropWhile isWordChar = rest.dropWhile isWordChar := by
    rw [List.dropWhile_cons_of_pos hc']
  have h2 : (rest.dropWhile isWordChar).length ≤ rest.length :=
    length_dropWhile_le isWordChar rest
  have h3 : (c :: rest).length ≤ s.length := by
    calc (c :: rest).length = (s.dropWhile notWord).length := by rw [h]
    _ ≤ s.length := length_dropWhile_le notWord s
  rw [h1]
  calc (rest.dropWhile isWordChar).length ≤ rest.length := h2
  _ < (c :: rest).length := by simp
  _ ≤ s.length := h3


example : split_sentence_with_delimiters ("Hallo! Wie".data) =
    ["Hallo".data, "! ".data, "Wie".data] := by decide


example : tokenize_sentence ("Hallo! Wie".data) = ["Hallo".data, "Wie".data] := by
  decide


example : split_sentence_with_delimiters [] = [] := by decide


/-- With fuel exceeding the input length, the scan's pieces concatenate back
to the input. -/
theorem scanParts_join :
    ∀ (fuel : Nat) (s : List Char), s.length < fuel →
      (scanParts fuel s).flatten = s := by
  intro fuel
  induction fuel with
  | zero => intro s hs; omega
  | succ n ih =>
    intro s hs
    rw [scanParts]
    cases h : s.dropWhile notWord with
    | nil =>
      simp only [List.flatten_cons, List.flatten_nil, List.append_nil]
      have := List.takeWhile_append_dropWhile (p := notWord) (l := s)
      rw [h, List.append_nil] at this
      exact this
    | cons c rest =>
      have hlt := scan_step_lt s c rest h
      have ihr := ih ((c :: rest).dropWhile isWordChar) (by omega)
      simp only [List.flatten_cons]
      rw [ihr, List.takeWhile_append_dropWhile (p := isWordChar) (l := c :: rest),
        ← h, List.takeWhile_append_dropWhile]


/-- Joining a list of lists ignores its empty elements. -/
theorem join_filter_nonempty (l : List (List Char)) :
    (l.filter (fun p => !p.isEmpty)).flatten = l.flatten := by
  induction l with
  | nil => rfl
  | cons p rest ih =>
    by_cases hp : p.isEmpty = true
    · have : p = [] := by simpa using hp
      simp [List.filter_cons, hp, this, ih]
    · simp [List.filter_cons, Bool.eq_false_iff.mpr hp, ih]


/-- C1, part 1: concatenating the returned pieces reproduces the input. -/
theorem split_sentence_join (s : List Char) :
    (split_sentence_with_delimiters s).flatten = s := by
  by_cases hs : s.isEmpty = true
  · have : s = [] := by simpa using hs
    simp [split_sentence_with_delimiters, this]
  · rw [split_sentence_with_delimiters, if_neg (by simpa using hs),
      join_filter_nonempty]
    exact scanParts_join (s.length + 1) s (Nat.lt_succ_self _)


/-- C1, part 2: every returned piece is nonempty. -/
theorem split_sentence_nonempty (s : List Char) :
    ∀ p ∈ split_sentence_with_delimiters s, p ≠ [] := by
  intro p hp
  rw [split_sentence_with_delimiters] at hp
  by_cases hs : s.isEmpty = true
  · rw [if_pos hs] at hp; cases hp
  · rw [if_neg hs] at hp
    have := List.of_mem_filter hp
    intro hnil
    rw [hnil] at this
    simp at this


/-- With sufficient fuel, filtering the split pieces down to those containing
a word character yields exactly the findall word scan. -/
theorem scanParts_filter_eq_scanWords :
    ∀ (fuel : Nat) (s : List Char), s.length < fuel →
      (((scanParts fuel s).filter (fun p => !p.isEmpty)).filter
          (fun p => p.any isWordChar)) = scanWords fuel s := by
  intro fuel
  induction fuel with
  | zero => intro s hs; omega
  | succ n ih =>
    intro s hs
    rw [scanParts, scanWords]
    cases h : s.dropWhile notWord with
    | nil =>
      have hgap : ∀ x ∈ s.takeWhile notWord, isWordChar x = false := by
        intro x hx
        have := List.mem_takeWhile_imp hx
        simpa [notWord] using this
      by_cases hge : (s.takeWhile notWord).isEmpty = true
      · simp [List.filter_cons, hge]
      · have hany : (s.takeWhile notWord).any isWordChar = false := by
          rw [Bool.eq_false_iff]
          intro hc
          obtain ⟨x, hx, hwx⟩ := List.any_eq_true.mp hc
          rw [hgap x hx] at hwx
          cases hwx
        simp [List.filter_cons, hge, hany]
    | cons c rest =>
      have hlt := scan_step_lt s c rest h
      have ihr := ih ((c :: rest).dropWhile isWordChar) (by omega)
      have hc : isWordChar c = true := by
        have := dropWhile_eq_cons_head notWord s c rest h
        simpa [notWord] using this
      have hword : (c :: rest).takeWhile isWordChar =
          c :: rest.takeWhile isWordChar := by
        rw [List.takeWhile_cons_of_pos hc]
      have hwordne : ((c :: rest).takeWhile isWordChar).isEmpty = false := by
        rw [hword]; rfl
      have hwordany : ((c :: rest).takeWhile isWordChar).any isWordChar = true := by
        rw [hword]
        exact List.any_eq_true.mpr ⟨c, List.mem_cons_self c _, hc⟩
      have hgap : ∀ x ∈ s.takeWhile notWord, isWordChar x = false := by
        intro x hx
        have := List.mem_takeWhile_imp hx
        simpa [notWord] using this
      by_cases hge : (s.takeWhile notWord).isEmpty = true
      · simp [List.filter_cons, hge, hwordne, hwordany, ihr]
      · have hany : (s.takeWhile notWord).any isWordChar = false := by
          rw [Bool.eq_false_iff]
          intro hcc
          obtain ⟨x, hx, hwx⟩ := List.any_eq_true.mp hcc
          rw [hgap x hx] at hwx
          cases hwx
        simp [List.filter_cons, hge, hany, hwordne, hwordany, ihr]


/-- C1: for every input string (including the empty one), concatenating in
order all elements of `split_sentence_with_delimiters` reproduces the input
exactly, and no returned element is the empty string. -/
theorem c1_split_roundtrip_lossless (s : List Char) :
    (split_sentence_with_delimiters s).flatten = s ∧
      ∀ p ∈ split_sentence_with_delimiters s, p ≠ [] :=
  ⟨split_sentence_join s, split_sentence_nonempty s⟩


/-- Witness for C1 at the concrete sentence `"Hallo! Wie"`. -/
theorem c1_split_roundtrip_lossless_witness :
    (split_sentence_with_delimiters ("Hallo! Wie".data)).flatten =
        ("Hallo! Wie".data) ∧
      ("Hallo".data) ≠ ([] : List Char) :=
  ⟨(c1_split_roundtrip_lossless ("Hallo! Wie".data)).1,
    (c1_split_roundtrip_lossless ("Hallo! Wie".data)).2 ("Hallo".data) (by decide)⟩


/-- C10: filtering the pieces of `split_sentence_with_delimiters` down to the
elements containing at least one word character (the test `re.search(r"\w",
part)` used in `app.py`) yields exactly `tokenize_sentence`, in order. -/
theorem c10_split_filter_eq_tokenize (s : List Char) :
    (split_sentence_with_delimiters s).filter (fun p => p.any isWordChar) =
      tokenize_sentence s := by
  by_cases hs : s.isEmpty = true
  · simp [split_sentence_with_delimiters, tokenize_sentence, hs]
  · rw [split_sentence_with_delimiters, if_neg hs, tokenize_sentence, if_neg hs]
    exact scanParts_filter_eq_scanWords (s.length + 1) s (Nat.lt_succ_self _)


example :
    (split_sentence_with_delimiters ("Hallo! Wie geht es?".data)).filter
        (fun p => p.any isWordChar) =
      tokenize_sentence ("Hallo! Wie geht es?".data) := by decide


/-- The dedup loop only ever removes elements, so order and casing of the
kept occurrences are preserved. -/
theorem dedupWords_sublist :
    ∀ (ws seen : List (List Char)), (dedupWords seen ws).Sublist ws := by
  intro ws
  induction ws with
  | nil => intro seen; simp [dedupWords]
  | cons w rest ih =>
    intro seen
    rw [dedupWords]
    by_cases hc : seen.contains (w.map Char.toLower) = true
    · rw [if_pos hc]
      exact (ih seen).cons w
    · rw [if_neg hc]
      exact (ih (w.map Char.toLower :: seen)).cons₂ w


/-- Every element the dedup loop keeps is the first element of the input whose
lowercasing matches its own, and its lowercasing was not previously seen. -/
theorem dedupWords_mem_spec :
    ∀ (ws seen : List (List Char)) (w : List Char),
      w ∈ dedupWords seen ws →
        seen.contains (w.map Char.toLower) = false ∧
          (ws.filter
              (fun v => v.map Char.toLower == w.map Char.toLower)).head? =
            some w := by
  intro ws
  induction ws with
  | nil => intro seen w h; simp [dedupWords] at h
  | cons v rest ih =>
    intro seen w h
    rw [dedupWords] at h
    by_cases hc : seen.contains (v.map Char.toLower) = true
    · rw [if_pos hc] at h
      obtain ⟨h1, h2⟩ := ih seen w h
      have hne : (v.map Char.toLower == w.map Char.toLower) = false := by
        rw [beq_eq_false_iff_ne]
        intro he
        rw [he] at hc
        rw [hc] at h1
        cases h1
      rw [List.filter_cons, hne]
      exact ⟨h1, h2⟩
    · rw [if_neg hc] at h
      rcases List.mem_cons.mp h with hv | hrec
      · subst hv
        refine ⟨Bool.eq_false_iff.mpr hc, ?_⟩
        rw [List.filter_cons]
        simp
      · obtain ⟨h1, h2⟩ := ih (v.map Char.toLower :: seen) w hrec
        rw [List.contains_cons] at h1
        have h1' := Bool.or_eq_false_iff.mp h1
        have hne : (v.map Char.toLower == w.map Char.toLower) = false := by
          rw [beq_eq_false_iff_ne]
          intro he
          rw [he] at h1'
          simp at h1'
        rw [List.filter_cons, hne]
        exact ⟨h1'.2, h2⟩


/-- C5: the word-button deduplication is case-insensitive, keeps the
first-seen original casing of each word, and preserves first-occurrence
order; on `"Der Hund und der Hund"` it yields `["Der", "Hund", "und"]`.
Order/casing preservation is expressed by the output being a sublist of the
word-token list, and first-seen casing by each output word being the head of
the filter of the word tokens sharing its lowercasing. -/
theorem c5_dedup_case_insensitive_first_seen :
    display_words_list ("Der Hund und der Hund".data) =
        ["Der".data, "Hund".data, "und".data] ∧
      (∀ ws : List (List Char), (dedupWords [] ws).Sublist ws) ∧
      (∀ (ws : List (List Char)) (w : List Char), w ∈ dedupWords [] ws →
        (ws.filter
            (fun v => v.map Char.toLower == w.map Char.toLower)).head? =
          some w) :=
  ⟨by decide,
    fun ws => dedupWords_sublist ws [],
    fun ws w h => (dedupWords_mem_spec ws [] w h).2⟩


/-- Witness for C5: the first-seen-casing property at the concrete token list
of `"Der Hund und der Hund"`. -/
theorem c5_dedup_case_insensitive_first_seen_witness :
    (["Der".data, "Hund".data, "und".data, "der".data,
        "Hund".data].filter
        (fun v => v.map Char.toLower == ("Der".data).map Char.toLower)).head? =
      some ("Der".data) :=
  c5_dedup_case_insensitive_first_seen.2.2
    ["Der".data, "Hund".data, "und".data, "der".data, "Hund".data]
    ("Der".data) (by decide)


example :
    translate_text ("Hallo".data)
        (.ok (some ("Hello MYMEMORY WARNING: SOMETHING NMT".data))) =
      some ("Hello MYMEMORY WARNING: SOMETHING".data) := by decide


/-- C3 counterexample: a response whose translated text is `"Hallo NMT"` does
not contain the `MYMEMORY WARNING` marker, so `translate_text` returns it
unchanged — not `"Hallo"` as the claim states. -/
theorem c3_counterexample_no_marker_no_strip :
    translate_text ("Hi".data) (.ok (some ("Hallo NMT".data))) =
        some ("Hallo NMT".data) ∧
      ("Hallo NMT".data) ≠ ("Hallo".data) := by
  constructor
  · decide
  · decide


/-- C3 (amended): the warning suffix is stripped only when the response text
embeds the `MYMEMORY WARNING` marker; for the marker-bearing response text
`"Hallo NMT MYMEMORY WARNING"` the returned value is `"Hallo"`, while the
marker-free `"Hallo NMT"` is returned unchanged. -/
theorem c3_marker_strip_amended :
    translate_text ("Hi".data)
        (.ok (some ("Hallo NMT MYMEMORY WARNING".data))) =
        some ("Hallo".data) ∧
      translate_text ("Hi".data) (.ok (some ("Hallo NMT".data))) =
        some ("Hallo NMT".data) := by
  constructor
  · decide
  · decide


/-- C7: `translate_text` returns the failure marker `none` for empty input
whatever the network would have answered (the request is never consulted),
and returns `none` rather than raising on timeout, network error,
non-parseable response, and missing translation field. -/
theorem c7_translate_failure_modes :
    (∀ outcome : ApiOutcome, translate_text [] outcome = none) ∧
      (∀ text : List Char, translate_text text .timeout = none) ∧
      (∀ text : List Char, translate_text text .requestError = none) ∧
      (∀ text : List Char, translate_text text .jsonError = none) ∧
      (∀ text : List Char, translate_text text (.ok none) = none) := by
  refine ⟨fun outcome => rfl, fun text => ?_, fun text => ?_, fun text => ?_,
    fun text => ?_⟩ <;>
    · rw [translate_text]
      by_cases ht : text.isEmpty = true
      · rw [if_pos ht]
      · rw [if_neg ht]


/-- C8: the generator's post-processing strips leading/trailing
quote/markdown/bullet characters and a leading `Beispiel:`/`Example:` lead;
in particular the raw model output `- "Das ist gut."` is cleaned to
`Das ist gut.`, and so is `Beispiel: Das ist gut.`. -/
theorem c8_example_output_cleaned :
    get_german_example_sentence_ollama ("gut".data)
        (some ("- \"Das ist gut.\"".data)) = some ("Das ist gut.".data) ∧
      get_german_example_sentence_ollama ("gut".data)
        (some ("Beispiel: Das ist gut.".data)) = some ("Das ist gut.".data) := by
  constructor
  · decide
  · decide


/-- C2 counterexample: with the words panel visible, changing the input DOES
clear the `show_word_buttons` flag (line 156 of `app.py` sets it to
`False`), contradicting the claim that the input-changed transition leaves
the words-visible flag alone. -/
theorem c2_counterexample_input_change_hides_words :
    ({ initialAppState with show_word_buttons := true } : AppState).show_word_buttons
        = true ∧
      ({ initialAppState with
          show_word_buttons := true } : AppState).input_sentence ≠ ("a".data) ∧
      (update_input_state { initialAppState with show_word_buttons := true }
          ("a".data)).show_word_buttons = false := by
  refine ⟨rfl, by decide, by decide⟩


/-- C2 (amended): on an actual input change the transition clears the word
translation, sentence translation, active word, both example results and the
audio bytes, and ALSO clears the words-visible flag; the toggle-words action
clears the flag as well whenever it hides the panel. -/
theorem c2_input_change_clears_amended (s : AppState) (widget : List Char)
    (h : s.input_sentence ≠ widget) :
    (update_input_state s widget).word_translation_result = none ∧
      (update_input_state s widget).sentence_translation_result = none ∧
      (update_input_state s widget).active_translation_word = none ∧
      (update_input_state s widget).german_example_sentence_result = none ∧
      (update_input_state s widget).english_example_translation_result = none ∧
      (update_input_state s widget).tts_audio_bytes = none ∧
      (update_input_state s widget).show_word_buttons = false ∧
      ∀ s2 : AppState, s2.show_word_buttons = true →
        (toggle_words_button s2).show_word_buttons = false ∧
          (toggle_words_button s2).active_translation_word = none := by
  rw [update_input_state, if_pos h]
  refine ⟨rfl, rfl, rfl, rfl, rfl, rfl, rfl, ?_⟩
  intro s2 h2
  rw [toggle_words_button]
  simp only [h2]
  exact ⟨rfl, rfl⟩


/-- Witness for C2 (amended) at a concrete state and input. -/
theorem c2_input_change_clears_amended_witness :
    (update_input_state { initialAppState with show_word_buttons := true }
          ("b".data)).word_translation_result = none ∧
      (update_input_state { initialAppState with show_word_buttons := true }
          ("b".data)).sentence_translation_result = none ∧
      (update_input_state { initialAppState with show_word_buttons := true }
          ("b".data)).active_translation_word = none ∧
      (update_input_state { initialAppState with show_word_buttons := true }
          ("b".data)).german_example_sentence_result = none ∧
      (update_input_state { initialAppState with show_word_buttons := true }
          ("b".data)).english_example_translation_result = none ∧
      (update_input_state { initialAppState with show_word_buttons := true }
          ("b".data)).tts_audio_bytes = none ∧
      (update_input_state { initialAppState with show_word_buttons := true }
          ("b".data)).show_word_buttons = false ∧
      ∀ s2 : AppState, s2.show_word_buttons = true →
        (toggle_words_button s2).show_word_buttons = false ∧
          (toggle_words_button s2).active_translation_word = none :=
  c2_input_change_clears_amended
    { initialAppState with show_word_buttons := true } ("b".data) (by decide)


/-- C4: clicking a word first (before any request) sets the active word and
clears the word translation, sentence translation, both example results and
the audio bytes; and after the whole transition the stored word-translation
pair is tagged with the clicked word itself, so the displayed results always
belong to the active word. -/
theorem c4_word_click_no_stale_results (s : AppState) (word : List Char)
    (wordTrans germanExample exampleTrans : Option (List Char)) :
    (handle_word_click_reset s word).active_translation_word = some word ∧
      (handle_word_click_reset s word).word_translation_result = none ∧
      (handle_word_click_reset s word).sentence_translation_result = none ∧
      (handle_word_click_reset s word).german_example_sentence_result = none ∧
      (handle_word_click_reset s word).english_example_translation_result
          = none ∧
      (handle_word_click_reset s word).tts_audio_bytes = none ∧
      (handle_word_click s word wordTrans germanExample
          exampleTrans).active_translation_word = some word ∧
      ∃ t, (handle_word_click s word wordTrans germanExample
          exampleTrans).word_translation_result = some (word, t) := by
  refine ⟨rfl, rfl, rfl, rfl, rfl, rfl, ?_, ?_⟩ <;>
    · rw [handle_word_click]
      by_cases hg : optTruthy germanExample = true
      · simp only [hg, if_pos]
        first
          | rfl
          | exact ⟨_, rfl⟩
      · simp only [Bool.eq_false_iff.mpr hg, if_neg, Bool.false_eq_true]
        first
          | rfl
          | exact ⟨_, rfl⟩


/-- C9: when the word translation succeeds (a truthy string), the final state
of the word-click transition stores it, whatever the example-generation and
example-translation oracles returned — a failed example step never removes
the word translation obtained in the same transition. -/
theorem c9_example_failure_keeps_word_translation (s : AppState)
    (word t : List Char) (germanExample exampleTrans : Option (List Char))
    (h : t ≠ []) :
    (handle_word_click s word (some t) germanExample
        exampleTrans).word_translation_result = some (word, t) := by
  rw [handle_word_click]
  have ht : optTruthy (some t) = true := by
    simp [optTruthy, h]
  by_cases hg : optTruthy germanExample = true
  · simp only [hg, if_pos, ht]
    simp [ht]
  · simp only [Bool.eq_false_iff.mpr hg, if_neg, Bool.false_eq_true]
    simp [ht]


/-- Witness for C9: word `"Hund"` translated to `"dog"` survives a failed
example step (`none` example, `none` example translation). -/
theorem c9_example_failure_keeps_word_translation_witness :
    (handle_word_click initialAppState ("Hund".data) (some ("dog".data))
        none none).word_translation_result =
      some (("Hund".data), ("dog".data)) :=
  c9_example_failure_keeps_word_translation initialAppState ("Hund".data)
    ("dog".data) none none (by decide)


/-- Under the shipped configuration (`TTS_ENGINE = "huggingface"`), the first
branch of `generate_speech_audio` computes exactly the primary-backend call:
when the availability guard fails, the helper returns the absent triple
itself. -/
theorem generate_primary_eq_hf (cfg : TtsConfig) (text : List Char)
    (hfOut gttsOut : Option (List Nat)) :
    (if TTS_ENGINE = engineHuggingface ∧ cfg.hf_libraries_installed = true ∧
        cfg.hf_model_loaded = true then
      generate_speech_audio_hf cfg text hfOut
    else if TTS_ENGINE = engineGtts ∧ cfg.gtts_installed = true then
      generate_speech_audio_gtts cfg text gttsOut
    else ⟨none, none, none⟩) = generate_speech_audio_hf cfg text hfOut := by
  by_cases h1 : cfg.hf_libraries_installed = true
  · by_cases h2 : cfg.hf_model_loaded = true
    · rw [if_pos ⟨rfl, h1, h2⟩]
    · rw [if_neg (by intro h; exact h2 h.2.2),
        if_neg (by intro h; exact absurd h.1 (by decide))]
      simp [generate_speech_audio_hf, Bool.eq_false_iff.mpr h2]
  · rw [if_neg (by intro h; exact h1 h.2.1),
      if_neg (by intro h; exact absurd h.1 (by decide))]
    simp [generate_speech_audio_hf, Bool.eq_false_iff.mpr h1]


/-- Reformulation of `generate_speech_audio` through the primary call. -/
theorem generate_speech_audio_eq (cfg : TtsConfig) (text : List Char)
    (hfOut gttsOut : Option (List Nat)) :
    generate_speech_audio cfg text hfOut gttsOut =
      if (generate_speech_audio_hf cfg text hfOut).bytes = none ∧
          cfg.gtts_installed = true then
        let g := generate_speech_audio_gtts cfg text gttsOut
        ⟨g.bytes, g.format,
          match g.engine with
          | none => none
          | some n => if n.isEmpty then some n else some (n ++ fallbackTag)⟩
      else generate_speech_audio_hf cfg text hfOut := by
  rw [generate_speech_audio]
  rw [generate_primary_eq_hf cfg text hfOut gttsOut]


/-- A primary call with absent bytes is the absent triple. -/
theorem hf_absent (cfg : TtsConfig) (text : List Char)
    (hfOut : Option (List Nat))
    (h : (generate_speech_audio_hf cfg text hfOut).bytes = none) :
    generate_speech_audio_hf cfg text hfOut = ⟨none, none, none⟩ := by
  rw [generate_speech_audio_hf.eq_def] at h ⊢
  by_cases hg : (!(cfg.hf_libraries_installed && cfg.hf_model_loaded)
      || text.isEmpty) = true
  · rw [if_pos hg]
  · rw [if_neg hg] at h ⊢
    cases hfOut with
    | none => rfl
    | some b => simp at h


/-- A successful available primary call returns WAV bytes tagged
`Hugging Face`. -/
theorem hf_success (cfg : TtsConfig) (text : List Char) (b : List Nat)
    (h1 : cfg.hf_libraries_installed = true) (h2 : cfg.hf_model_loaded = true)
    (ht : text.isEmpty = false) :
    generate_speech_audio_hf cfg text (some b) =
      ⟨some b, some audioWavFormat, some hfEngineName⟩ := by
  simp [generate_speech_audio_hf, h1, h2, ht]


/-- A secondary call with absent bytes is the absent triple. -/
theorem gtts_absent (cfg : TtsConfig) (text : List Char)
    (gttsOut : Option (List Nat))
    (h : (generate_speech_audio_gtts cfg text gttsOut).bytes = none) :
    generate_speech_audio_gtts cfg text gttsOut = ⟨none, none, none⟩ := by
  rw [generate_speech_audio_gtts.eq_def] at h ⊢
  by_cases hg : (!(cfg.gtts_installed && !text.isEmpty)) = true
  · rw [if_pos hg]
  · rw [if_neg hg] at h ⊢
    cases gttsOut with
    | none => rfl
    | some b => simp at h


/-- Without gTTS installed the secondary call is the absent triple. -/
theorem gtts_unavailable (cfg : TtsConfig) (text : List Char)
    (gttsOut : Option (List Nat)) (h : cfg.gtts_installed = false) :
    generate_speech_audio_gtts cfg text gttsOut = ⟨none, none, none⟩ := by
  simp [generate_speech_audio_gtts, h]


/-- A successful installed secondary call returns MP3 bytes tagged `gTTS`. -/
theorem gtts_success (cfg : TtsConfig) (text : List Char) (b : List Nat)
    (h1 : cfg.gtts_installed = true) (ht : text.isEmpty = false) :
    generate_speech_audio_gtts cfg text (some b) =
      ⟨some b, some audioMp3Format, some gttsEngineName⟩ := by
  simp [generate_speech_audio_gtts, h1, ht]


/-- C6: `generate_speech_audio` tries the configured primary backend first
(its successful result is returned untagged); when the primary call yields no
bytes and gTTS is installed, the secondary result is returned with
`" (Fallback)"` appended to the engine name; the bytes are absent exactly
when both backend calls yield no bytes, and in that case the whole triple is
`(none, none, none)`. -/
theorem c6_tts_fallback_policy (cfg : TtsConfig) (text : List Char)
    (hfOut gttsOut : Option (List Nat)) :
    (∀ b : List Nat, cfg.hf_libraries_installed = true →
        cfg.hf_model_loaded = true → text.isEmpty = false → hfOut = some b →
        generate_speech_audio cfg text hfOut gttsOut =
          ⟨some b, some audioWavFormat, some hfEngineName⟩) ∧
      (∀ b : List Nat, (generate_speech_audio_hf cfg text hfOut).bytes = none →
        cfg.gtts_installed = true → text.isEmpty = false → gttsOut = some b →
        generate_speech_audio cfg text hfOut gttsOut =
          ⟨some b, some audioMp3Format, some (gttsEngineName ++ fallbackTag)⟩) ∧
      ((generate_speech_audio cfg text hfOut gttsOut).bytes = none ↔
        (generate_speech_audio_hf cfg text hfOut).bytes = none ∧
          (generate_speech_audio_gtts cfg text gttsOut).bytes = none) ∧
      ((generate_speech_audio cfg text hfOut gttsOut).bytes = none →
        generate_speech_audio cfg text hfOut gttsOut = ⟨none, none, none⟩) := by
  refine ⟨?_, ?_, ?_, ?_⟩
  · intro b h1 h2 ht hb
    subst hb
    have hs := hf_success cfg text b h1 h2 ht
    rw [generate_speech_audio_eq, if_neg]
    · exact hs
    · intro hcon
      rw [hs] at hcon
      cases hcon.1
  · intro b hn hg ht hb
    subst hb
    rw [generate_speech_audio_eq, if_pos ⟨hn, hg⟩]
    rw [gtts_success cfg text b hg ht]
    have : (gttsEngineName).isEmpty = false := by decide
    simp [this]
  · by_cases hn : (generate_speech_audio_hf cfg text hfOut).bytes = none
    · by_cases hg : cfg.gtts_installed = true
      · rw [generate_speech_audio_eq, if_pos ⟨hn, hg⟩]
        constructor
        · intro hgb
          exact ⟨hn, hgb⟩
        · intro hh
          exact hh.2
      · rw [generate_speech_audio_eq, if_neg (fun hh => hg hh.2)]
        have hu := gtts_unavailable cfg text gttsOut (Bool.eq_false_iff.mpr hg)
        rw [hu]
        exact ⟨fun _ => ⟨hn, rfl⟩, fun _ => hn⟩
    · rw [generate_speech_audio_eq, if_neg (fun hh => hn hh.1)]
      exact ⟨fun hh => absurd hh hn, fun hh => absurd hh.1 hn⟩
  · intro habs
    by_cases hn : (generate_speech_audio_hf cfg text hfOut).bytes = none
    · by_cases hg : cfg.gtts_installed = true
      · rw [generate_speech_audio_eq, if_pos ⟨hn, hg⟩] at habs ⊢
        have hgb : (generate_speech_audio_gtts cfg text gttsOut).bytes = none :=
          habs
        rw [gtts_absent cfg text gttsOut hgb]
      · rw [generate_speech_audio_eq, if_neg (fun hh => hg hh.2)] at habs ⊢
        exact hf_absent cfg text hfOut habs
    · rw [generate_speech_audio_eq, if_neg (fun hh => hn hh.1)] at habs
      exact absurd habs hn


/-- Witness for C6: primary unavailable, gTTS installed and succeeding — the
result is the gTTS bytes tagged as a fallback. -/
theorem c6_tts_fallback_policy_witness :
    generate_speech_audio ⟨false, false, true⟩ ("a".data) none (some [1]) =
      ⟨some [1], some audioMp3Format, some (gttsEngineName ++ fallbackTag)⟩ :=
  (c6_tts_fallback_policy ⟨false, false, true⟩ ("a".data) none
      (some [1])).2.1 [1] (by decide) rfl (by decide) rfl


end GermanTranslator

